import Mathlib

/-!
Verification of `src/python/diarization.py` (explicit09/transcriber).

The script wraps the pretrained `pyannote/speaker-diarization-3.0` pipeline:
`diarize_audio` validates the HuggingFace token and the audio path, selects a
compute device, loads the pipeline, instantiates clustering parameters, runs
diarization and reformats the resulting turns; the `__main__` block parses
`sys.argv`, calls `diarize_audio` and prints a single JSON object to stdout.

We embed the script shallowly.  All interaction with the outside world
(environment variables, the filesystem, CUDA availability, the behaviour of
the third-party pipeline) is collected in a `World` record; the Python
functions become pure Lean functions over a `World`, returning their result
together with a trace of their observable effects (stderr lines, device
selection, pipeline loading, instantiation, invocation).
-/

/-- A compute device, as selected by `torch.device("cuda" if ... else "cpu")`. -/
inductive Device where
  | cuda : Device
  | cpu : Device
deriving DecidableEq, Repr

/-- Rendering of the device inside the `Using device: ...` stderr message. -/
def Device.str : Device → String
  | .cuda => "cuda"
  | .cpu => "cpu"

/-- Python exceptions that the script can raise or propagate.  `other` covers
exceptions escaping `Pipeline.from_pretrained` and the pipeline call, which
the script re-raises; the payload is the exception's `str`. -/
inductive PyExc where
  | valueError : String → PyExc
  | fileNotFoundError : String → PyExc
  | other : String → PyExc
deriving DecidableEq, Repr

/-- `str(e)` for the exceptions we model: the message itself. -/
def PyExc.msg : PyExc → String
  | .valueError m => m
  | .fileNotFoundError m => m
  | .other m => m

/-- The clustering hyperparameters the script passes to
`pipeline.instantiate` — the dictionary has exactly these keys. -/
structure Clustering where
  min_cluster_size : ℕ
  threshold : ℚ
  num_clusters : Option ℤ
deriving DecidableEq, Repr

/-- One reformatted speaker segment, as appended to `segments`:
a dict with exactly the keys `start`, `end` and `speaker`. -/
structure Segment where
  start : ℚ
  «end» : ℚ
  speaker : String
deriving DecidableEq, Repr

/-- The outside world an invocation runs against: the environment variable
`HUGGINGFACE_TOKEN` (`none` when unset), which paths exist, whether CUDA is
available, whether loading / running the pipeline raises (with the
exception's message), and the list of turns `(start, end, speaker)` that
`diarization.itertracks(yield_label=True)` yields, in order. -/
structure World where
  envToken : Option String
  pathExists : String → Bool
  cudaAvailable : Bool
  loadOk : Bool
  loadErrMsg : String
  runOk : Bool
  runErrMsg : String
  tracks : List (ℚ × ℚ × String)

/-- Observable effects of one `diarize_audio` call: the stderr lines printed
in order, the device chosen at `torch.device(...)`, the argument pair
(model name, token) of the `Pipeline.from_pretrained` call when it happens,
the device the loaded pipeline is moved to by `.to(device)`, the parameters
passed to `pipeline.instantiate`, and whether the pipeline was invoked. -/
structure DiarizeTrace where
  stderr : List String
  deviceSelected : Option Device
  loadCalled : Option (String × String)
  movedTo : Option Device
  instantiated : Option Clustering
  invoked : Bool
deriving DecidableEq, Repr

/-- The trace of a call that performed no effect yet. -/
def DiarizeTrace.empty : DiarizeTrace :=
  ⟨[], none, none, none, none, false⟩

/-- Python truthiness of an optional string: `None` and `""` are falsy. -/
def truthy : Option String → Bool
  | none => false
  | some s => s ≠ ""

/-- Token resolution at the top of `diarize_audio`: a truthy `hf_token`
argument is kept, otherwise `os.environ.get("HUGGINGFACE_TOKEN")` is
consulted; the result is the token to use, or `none` when both are falsy. -/
def resolveToken (w : World) (hf_token : Option String) : Option String :=
  if truthy hf_token then hf_token
  else if truthy w.envToken then w.envToken
  else none

/-- `round(x, 2)`: rounding to two decimal places.  (Python rounds ties on
binary floats; on exact rationals we round half up, which agrees everywhere
the scripts' claims are exercised.) -/
def round2 (q : ℚ) : ℚ :=
  ((⌊q * 100 + 1 / 2⌋ : ℤ) : ℚ) / 100

/-- The clustering dictionary built by lines 44–66: base values
`min_cluster_size = 15`, `threshold = 0.75`; with `num_speakers` given,
`num_clusters` is added; otherwise `threshold` is overwritten with `0.85`
and `min_cluster_size` with `25`. -/
def clusteringParams (num_speakers : Option ℤ) : Clustering :=
  match num_speakers with
  | some n => ⟨15, 3 / 4, some n⟩
  | none => ⟨25, 17 / 20, none⟩

/-- The stderr line printed alongside the parameter choice. -/
def clusteringMsg (num_speakers : Option ℤ) : String :=
  match num_speakers with
  | some n => "Using fixed number of speakers: " ++ toString n
  | none => "Using automatic speaker counting with conservative parameters"

/-- The model name hard-wired into `Pipeline.from_pretrained`. -/
def modelName : String := "pyannote/speaker-diarization-3.0"

/-- Reformatting of one pipeline turn into a segment (lines 80–85). -/
def turnToSegment (t : ℚ × ℚ × String) : Segment :=
  ⟨round2 t.1, round2 t.2.1, t.2.2⟩

/-- The number of distinct speakers among the yielded turns (the size of the
`speakers` set accumulated by the loop). -/
def speakerCount (tracks : List (ℚ × ℚ × String)) : ℕ :=
  (tracks.map (fun t => t.2.2)).dedup.length

/-- Shallow embedding of `diarize_audio(audio_path, num_speakers, hf_token)`:
the returned value (or the exception raised) paired with the trace of
effects.  Mirrors the source line by line: token check, path check, device
selection, pipeline load, parameter instantiation, pipeline invocation,
segment reformatting. -/
def diarize_audio (w : World) (audio_path : String) (num_speakers : Option ℤ)
    (hf_token : Option String) : Except PyExc (List Segment) × DiarizeTrace :=
  match resolveToken w hf_token with
  | none =>
    (.error (.valueError "HuggingFace token required for pyannote.audio"),
      DiarizeTrace.empty)
  | some tok =>
    if ¬ w.pathExists audio_path then
      (.error (.fileNotFoundError ("Audio file not found: " ++ audio_path)),
        DiarizeTrace.empty)
    else
      let device := if w.cudaAvailable then Device.cuda else Device.cpu
      let err1 := ["Using device: " ++ device.str]
      if ¬ w.loadOk then
        (.error (.other w.loadErrMsg),
          ⟨err1 ++ ["Error loading pipeline: " ++ w.loadErrMsg],
            some device, some (modelName, tok), none, none, false⟩)
      else
        let params := clusteringParams num_speakers
        let err2 := err1 ++ [clusteringMsg num_speakers]
        if ¬ w.runOk then
          (.error (.other w.runErrMsg),
            ⟨err2 ++ ["Diarization failed: " ++ w.runErrMsg],
              some device, some (modelName, tok), some device, some params, true⟩)
        else
          (.ok (w.tracks.map turnToSegment),
            ⟨err2 ++ ["Detected " ++ toString (speakerCount w.tracks) ++ " speakers"],
              some device, some (modelName, tok), some device, some params, true⟩)

/-- JSON values, as produced by `json.dumps`. -/
inductive Json where
  | num : ℚ → Json
  | str : String → Json
  | arr : List Json → Json
  | obj : List (String × Json) → Json

/-- Whether a JSON value is an object. -/
def Json.isObj : Json → Bool
  | .obj _ => true
  | _ => false

/-- The JSON encoding of one segment dict. -/
def Segment.toJson (s : Segment) : Json :=
  .obj [("start", .num s.start), ("end", .num s.«end»), ("speaker", .str s.speaker)]

/-- `json.dumps({"segments": result})`. -/
def segmentsJson (segs : List Segment) : Json :=
  .obj [("segments", .arr (segs.map Segment.toJson))]

/-- `json.dumps({"error": str(e)})`. -/
def errorJson (m : String) : Json :=
  .obj [("error", .str m)]

/-- How the process terminates: falling off the end (exit status 0),
`sys.exit(1)`, or an uncaught exception (exit status 1, traceback on
stderr, nothing further on stdout). -/
inductive ExitKind where
  | normal : ExitKind
  | exitOne : ExitKind
  | uncaught : PyExc → ExitKind
deriving DecidableEq, Repr

/-- The process exit status each termination kind produces. -/
def ExitKind.code : ExitKind → ℕ
  | .normal => 0
  | .exitOne => 1
  | .uncaught _ => 1

/-- Result of one process invocation: the JSON values printed to stdout (one
per `print`, in order), the stderr lines, and how the process exited. -/
structure ProgResult where
  stdout : List Json
  stderr : List String
  exit : ExitKind

/-- The usage line printed when no audio file is given. -/
def usageMsg : String := "Usage: python diarization.py <audio_file> [num_speakers]"

/-- Drop leading whitespace characters. -/
def trimLeadingWs : List Char → List Char
  | [] => []
  | c :: rest => if c.isWhitespace then trimLeadingWs rest else c :: rest

/-- Strip whitespace from both ends, as `int()` does before parsing. -/
def trimWs (cs : List Char) : List Char :=
  (trimLeadingWs (trimLeadingWs cs).reverse).reverse

/-- Python `int(s)`: optional surrounding whitespace, an optional sign, then
a nonempty digit string.  Returns `none` when `int` would raise
`ValueError`. -/
def parseDigitsAux : List Char → ℕ → Option ℕ
  | [], acc => some acc
  | c :: rest, acc =>
    if c.isDigit then parseDigitsAux rest (acc * 10 + (c.toNat - 48)) else none

/-- A nonempty all-digit character list, as a number. -/
def parseDigits : List Char → Option ℕ
  | [] => none
  | cs => parseDigitsAux cs 0

/-- `int()` on a string, `none` on `ValueError`. -/
def pyInt (s : String) : Option ℤ :=
  match trimWs s.toList with
  | '+' :: rest => (parseDigits rest).map Int.ofNat
  | '-' :: rest => (parseDigits rest).map (fun n => -(n : ℤ))
  | l => (parseDigits l).map Int.ofNat

/-- The `try`/`except` around the `diarize_audio` call in `__main__`
(lines 100–107): on success print `{"segments": ...}` and exit normally; on
any exception print `{"error": str(e)}` and `sys.exit(1)`.  Note `__main__`
always passes `hf_token=None`. -/
def mainTry (w : World) (audio_file : String) (num_speakers : Option ℤ) : ProgResult :=
  match diarize_audio w audio_file num_speakers none with
  | (.ok segs, tr) => ⟨[segmentsJson segs], tr.stderr, .normal⟩
  | (.error e, tr) => ⟨[errorJson e.msg], tr.stderr, .exitOne⟩

/-- The `num_speakers` value `__main__` computes when `int(sys.argv[2])`
succeeds. -/
def progNumSpeakers (argv : List String) : Option ℤ :=
  if 2 < argv.length then pyInt (argv.getD 2 "") else none

/-- Shallow embedding of the `__main__` block: `argv` is `sys.argv`
(program name included).  Fewer than two arguments prints the usage line to
stderr and exits 1; a third argument that `int` rejects raises an uncaught
`ValueError` before the `try` block; otherwise `diarize_audio` runs inside
the `try`. -/
def progMain (w : World) (argv : List String) : ProgResult :=
  if argv.length < 2 then
    ⟨[], [usageMsg], .exitOne⟩
  else if 2 < argv.length then
    match pyInt (argv.getD 2 "") with
    | none =>
      ⟨[], [],
        .uncaught (.valueError
          ("invalid literal for int() with base 10: " ++ argv.getD 2 ""))⟩
    | some n => mainTry w (argv.getD 1 "") (some n)
  else
    mainTry w (argv.getD 1 "") none

/-! ### Concrete worlds used by witnesses and counterexamples -/

/-- A world where everything succeeds: a token in the environment, every
path present, no CUDA, pipeline loads and runs, yielding two turns. -/
def wOk : World where
  envToken := some "hf_secret"
  pathExists := fun _ => true
  cudaAvailable := false
  loadOk := true
  loadErrMsg := ""
  runOk := true
  runErrMsg := ""
  tracks := [(0, 3 / 2, "SPEAKER_00"), (3 / 2, 1337 / 100, "SPEAKER_01")]

/-- `wOk` with the `HUGGINGFACE_TOKEN` environment variable unset. -/
def wNoTok : World := { wOk with envToken := none }

/-- `wOk` with a filesystem on which no path exists. -/
def wNoFile : World := { wOk with pathExists := fun _ => false }

/-- `wOk` with CUDA available. -/
def wCuda : World := { wOk with cudaAvailable := true }

/-! ### Helper lemmas -/

/-- A truthy optional string is not `none`. -/
theorem truthy_ne_none (o : Option String) (h : truthy o = true) : o ≠ none := by
  cases o <;> simp [truthy] at h ⊢

/-- Token resolution fails exactly when both the argument and the
environment variable are falsy. -/
theorem resolveToken_eq_none (w : World) (hf : Option String) :
    resolveToken w hf = none ↔ truthy hf = false ∧ truthy w.envToken = false := by
  unfold resolveToken
  rcases h1 : truthy hf with _ | _ <;> rcases h2 : truthy w.envToken with _ | _ <;>
    simp [h1, h2]
  · exact truthy_ne_none _ h2
  · exact truthy_ne_none _ h1
  · exact truthy_ne_none _ h1

/-- A truthy argument or environment variable yields a resolved token. -/
theorem resolveToken_isSome (w : World) (hf : Option String)
    (h : truthy hf = true ∨ truthy w.envToken = true) :
    ∃ tok, resolveToken w hf = some tok := by
  rcases hr : resolveToken w hf with _ | tok
  · rw [resolveToken_eq_none] at hr
    rcases h with h | h <;> simp [h] at hr
  · exact ⟨tok, rfl⟩

/-- On the full success path, `diarize_audio` returns the reformatted
tracks and the complete effect trace. -/
theorem diarize_audio_success (w : World) (p : String) (ns : Option ℤ)
    (hf : Option String) (tok : String)
    (htok : resolveToken w hf = some tok)
    (hpath : w.pathExists p = true)
    (hload : w.loadOk = true) (hrun : w.runOk = true) :
    diarize_audio w p ns hf =
      (.ok (w.tracks.map turnToSegment),
        ⟨["Using device: " ++ (if w.cudaAvailable then Device.cuda else Device.cpu).str,
            clusteringMsg ns,
            "Detected " ++ toString (speakerCount w.tracks) ++ " speakers"],
          some (if w.cudaAvailable then Device.cuda else Device.cpu),
          some (modelName, tok),
          some (if w.cudaAvailable then Device.cuda else Device.cpu),
          some (clusteringParams ns), true⟩) := by
  unfold diarize_audio
  rw [htok]
  simp [hpath, hload, hrun]

/-! ### Claims C3–C7: `diarize_audio` -/

/-- C3: with both the `hf_token` argument and `HUGGINGFACE_TOKEN` falsy,
`diarize_audio` raises `ValueError` with an empty effect trace — before any
path check or pipeline load, whatever the filesystem looks like; with either
one truthy no `ValueError` is ever raised; and a truthy explicit token takes
precedence over the environment variable. -/
theorem C3_token_validation (w : World) (audio_path : String) (ns : Option ℤ)
    (hf : Option String) :
    (truthy hf = false → truthy w.envToken = false →
      diarize_audio w audio_path ns hf =
        (.error (.valueError "HuggingFace token required for pyannote.audio"),
          DiarizeTrace.empty)) ∧
    (truthy hf = true ∨ truthy w.envToken = true →
      ∀ m, (diarize_audio w audio_path ns hf).1 ≠ .error (.valueError m)) ∧
    (truthy hf = true → resolveToken w hf = hf) := by
  refine ⟨?_, ?_, ?_⟩
  · intro h1 h2
    have hn : resolveToken w hf = none := (resolveToken_eq_none w hf).mpr ⟨h1, h2⟩
    unfold diarize_audio
    rw [hn]
  · intro h m
    obtain ⟨tok, ht⟩ := resolveToken_isSome w hf h
    unfold diarize_audio
    rw [ht]
    by_cases hp : w.pathExists audio_path
    · by_cases hl : w.loadOk <;> by_cases hr : w.runOk <;> simp [hp, hl, hr]
    · simp [hp]
  · intro h
    unfold resolveToken
    rw [h]
    simp

/-- C3 witness: with no argument token and the environment unset, the call
raises the `ValueError` with an untouched trace. -/
theorem C3_token_validation_witness :
    truthy (none : Option String) = false ∧ truthy wNoTok.envToken = false ∧
    diarize_audio wNoTok "missing.wav" none none =
      (.error (.valueError "HuggingFace token required for pyannote.audio"),
        DiarizeTrace.empty) :=
  ⟨rfl, rfl, (C3_token_validation wNoTok "missing.wav" none none).1 rfl rfl⟩

/-- C4: with a valid token and a missing audio path, `diarize_audio` raises
`FileNotFoundError` and the pipeline is neither loaded nor invoked (the
trace is empty — no partial effect). -/
theorem C4_path_validation (w : World) (audio_path : String) (ns : Option ℤ)
    (hf : Option String)
    (htok : truthy hf = true ∨ truthy w.envToken = true)
    (hpath : w.pathExists audio_path = false) :
    diarize_audio w audio_path ns hf =
      (.error (.fileNotFoundError ("Audio file not found: " ++ audio_path)),
        DiarizeTrace.empty) ∧
    (diarize_audio w audio_path ns hf).2.loadCalled = none ∧
    (diarize_audio w audio_path ns hf).2.invoked = false := by
  obtain ⟨tok, ht⟩ := resolveToken_isSome w hf htok
  unfold diarize_audio
  rw [ht]
  simp [hpath, DiarizeTrace.empty]

/-- C4 witness: on a filesystem with no files, a tokened call raises
`FileNotFoundError`. -/
theorem C4_path_validation_witness :
    truthy wNoFile.envToken = true ∧ wNoFile.pathExists "a.wav" = false ∧
    diarize_audio wNoFile "a.wav" none none =
      (.error (.fileNotFoundError ("Audio file not found: " ++ "a.wav")),
        DiarizeTrace.empty) :=
  ⟨rfl, rfl, (C4_path_validation wNoFile "a.wav" none none (Or.inr rfl) rfl).1⟩

/-- C5: past validation, the device chosen is CUDA exactly when CUDA is
available and CPU otherwise (no third possibility exists), and when the
pipeline loads it is moved to that chosen device: it lands on CUDA exactly
when the load happened and CUDA was available. -/
theorem C5_device_selection (w : World) (audio_path : String) (ns : Option ℤ)
    (hf : Option String)
    (htok : truthy hf = true ∨ truthy w.envToken = true)
    (hpath : w.pathExists audio_path = true) :
    (diarize_audio w audio_path ns hf).2.deviceSelected =
      some (if w.cudaAvailable then Device.cuda else Device.cpu) ∧
    (w.loadOk = true →
      (diarize_audio w audio_path ns hf).2.movedTo =
        some (if w.cudaAvailable then Device.cuda else Device.cpu)) ∧
    ((diarize_audio w audio_path ns hf).2.movedTo = some Device.cuda ↔
      w.loadOk = true ∧ w.cudaAvailable = true) := by
  obtain ⟨tok, ht⟩ := resolveToken_isSome w hf htok
  unfold diarize_audio
  rw [ht]
  by_cases hl : w.loadOk <;> by_cases hr : w.runOk <;>
    cases hc : w.cudaAvailable <;> simp [hpath, hl, hr, hc]

/-- C5 witness: with CUDA available and a successful run, the pipeline is
moved to the CUDA device. -/
theorem C5_device_selection_witness :
    truthy wCuda.envToken = true ∧ wCuda.pathExists "a.wav" = true ∧
    (diarize_audio wCuda "a.wav" none none).2.movedTo = some Device.cuda :=
  ⟨rfl, rfl,
    ((C5_device_selection wCuda "a.wav" none none (Or.inr rfl) rfl).2.2).mpr
      ⟨rfl, rfl⟩⟩

/-- C6: past validation and a successful load, the pipeline is instantiated
with exactly the clustering parameters the script builds: with a speaker
count `n`, `min_cluster_size = 15`, `threshold = 0.75`, `num_clusters = n`;
without one, `min_cluster_size = 25`, `threshold = 0.85` and no
`num_clusters` — the `Clustering` record has no other field. -/
theorem C6_clustering_config (w : World) (audio_path : String) (ns : Option ℤ)
    (hf : Option String)
    (htok : truthy hf = true ∨ truthy w.envToken = true)
    (hpath : w.pathExists audio_path = true)
    (hload : w.loadOk = true) :
    (diarize_audio w audio_path ns hf).2.instantiated = some (clusteringParams ns) ∧
    (∀ n, clusteringParams (some n) = ⟨15, 3 / 4, some n⟩) ∧
    clusteringParams none = ⟨25, 17 / 20, none⟩ := by
  obtain ⟨tok, ht⟩ := resolveToken_isSome w hf htok
  refine ⟨?_, fun n => rfl, rfl⟩
  unfold diarize_audio
  rw [ht]
  by_cases hr : w.runOk <;> simp [hpath, hload, hr]

/-- C6 witness: a concrete call with a fixed speaker count instantiates
`min_cluster_size = 15`, `threshold = 0.75`, `num_clusters = 2`. -/
theorem C6_clustering_config_witness :
    truthy wOk.envToken = true ∧ wOk.loadOk = true ∧
    (diarize_audio wOk "a.wav" (some 2) none).2.instantiated =
      some (clusteringParams (some 2)) :=
  ⟨rfl, rfl, (C6_clustering_config wOk "a.wav" (some 2) none (Or.inr rfl) rfl rfl).1⟩

/-- C7: on the success path the only pipeline load is
`pyannote/speaker-diarization-3.0` with the resolved token, and the value
returned is exactly the pipeline's turn list mapped one-to-one through the
rounding reformatter — same length, same order, speaker labels untouched. -/
theorem C7_pure_wrapper (w : World) (audio_path : String) (ns : Option ℤ)
    (hf : Option String)
    (htok : truthy hf = true ∨ truthy w.envToken = true)
    (hpath : w.pathExists audio_path = true)
    (hload : w.loadOk = true) (hrun : w.runOk = true) :
    (∃ tok, resolveToken w hf = some tok ∧
      (diarize_audio w audio_path ns hf).2.loadCalled = some (modelName, tok)) ∧
    (diarize_audio w audio_path ns hf).1 = .ok (w.tracks.map turnToSegment) ∧
    (w.tracks.map turnToSegment).map Segment.speaker =
      w.tracks.map (fun t => t.2.2) ∧
    (w.tracks.map turnToSegment).length = w.tracks.length := by
  obtain ⟨tok, ht⟩ := resolveToken_isSome w hf htok
  rw [diarize_audio_success w audio_path ns hf tok ht hpath hload hrun]
  refine ⟨⟨tok, ht, rfl⟩, rfl, ?_, by simp⟩
  simp [List.map_map, Function.comp, turnToSegment]

/-- C7 witness: a concrete success returns exactly the reformatted tracks
and loads exactly the fixed model with the environment token. -/
theorem C7_pure_wrapper_witness :
    wOk.runOk = true ∧
    (diarize_audio wOk "a.wav" none none).1 = .ok (wOk.tracks.map turnToSegment) :=
  ⟨rfl, (C7_pure_wrapper wOk "a.wav" none none (Or.inr rfl) rfl rfl rfl).2.1⟩

/-! ### Claims C1, C2, C8, C9, C10: the `__main__` block -/

/-- With fewer than two arguments, `progMain` prints the usage line to
stderr and exits 1. -/
theorem progMain_usage_eq (w : World) (argv : List String)
    (h : argv.length < 2) :
    progMain w argv = ⟨[], [usageMsg], .exitOne⟩ := by
  unfold progMain
  rw [if_pos h]

/-- With a third argument `int()` rejects, `progMain` crashes with an
uncaught `ValueError` before the `try` block, printing nothing. -/
theorem progMain_badInt_eq (w : World) (argv : List String)
    (h2 : 2 < argv.length) (hp : pyInt (argv.getD 2 "") = none) :
    progMain w argv =
      ⟨[], [], .uncaught (.valueError
        ("invalid literal for int() with base 10: " ++ argv.getD 2 ""))⟩ := by
  have h1 : ¬ argv.length < 2 := by omega
  unfold progMain
  rw [if_neg h1, if_pos h2, hp]

/-- When argument parsing succeeds, `progMain` is the `try` block around
`diarize_audio` applied to the parsed arguments. -/
theorem progMain_run_eq (w : World) (argv : List String)
    (h1 : ¬ argv.length < 2)
    (hp : 2 < argv.length → ∃ m, pyInt (argv.getD 2 "") = some m) :
    progMain w argv = mainTry w (argv.getD 1 "") (progNumSpeakers argv) := by
  unfold progMain
  rw [if_neg h1]
  by_cases h2 : 2 < argv.length
  · obtain ⟨m, hm⟩ := hp h2
    rw [if_pos h2, hm]
    unfold progNumSpeakers
    rw [if_pos h2, hm]
  · rw [if_neg h2]
    unfold progNumSpeakers
    rw [if_neg h2]

/-- C8: with fewer than two command-line arguments the process prints the
usage line to stderr, writes nothing to stdout, and exits with code 1. -/
theorem C8_usage (w : World) (argv : List String) (h : argv.length < 2) :
    progMain w argv = ⟨[], [usageMsg], .exitOne⟩ ∧
    (progMain w argv).exit.code = 1 := by
  rw [progMain_usage_eq w argv h]
  exact ⟨rfl, rfl⟩

/-- C8 witness: invoking with only the program name prints usage and
exits 1. -/
theorem C8_usage_witness :
    (["diarization.py"] : List String).length < 2 ∧
    progMain wOk ["diarization.py"] = ⟨[], [usageMsg], .exitOne⟩ :=
  ⟨by decide, (C8_usage wOk ["diarization.py"] (by decide)).1⟩

/-- C9: a third argument that `int()` rejects raises the `ValueError`
outside the `try` block: the process terminates with a nonzero status, an
uncaught exception, and nothing — in particular no JSON — on stdout. -/
theorem C9_bad_int (w : World) (argv : List String)
    (h2 : 2 < argv.length) (hp : pyInt (argv.getD 2 "") = none) :
    (progMain w argv).stdout = [] ∧
    (progMain w argv).exit =
      .uncaught (.valueError
        ("invalid literal for int() with base 10: " ++ argv.getD 2 "")) ∧
    (progMain w argv).exit.code ≠ 0 := by
  rw [progMain_badInt_eq w argv h2 hp]
  exact ⟨rfl, rfl, by simp [ExitKind.code]⟩

/-- C9 witness: `int("abc")` fails, so the process crashes with empty
stdout. -/
theorem C9_bad_int_witness :
    pyInt ((["diarization.py", "a.wav", "abc"] : List String).getD 2 "") = none ∧
    (progMain wOk ["diarization.py", "a.wav", "abc"]).stdout = [] :=
  ⟨by decide, (C9_bad_int wOk ["diarization.py", "a.wav", "abc"] (by decide) (by decide)).1⟩

/-- C10: on every invocation, stdout carries at most one printed value and
any value printed there is a JSON object; every diagnostic line (device
choice, speaker-count mode, failure messages, usage) goes to the stderr
component by construction. -/
theorem C10_stream_separation (w : World) (argv : List String) :
    (progMain w argv).stdout.length ≤ 1 ∧
    ∀ j ∈ (progMain w argv).stdout, j.isObj = true := by
  by_cases h1 : argv.length < 2
  · rw [progMain_usage_eq w argv h1]
    simp
  · rcases hq : pyInt (argv.getD 2 "") with _ | m
    · by_cases h2 : 2 < argv.length
      · rw [progMain_badInt_eq w argv h2 hq]
        simp
      · rw [progMain_run_eq w argv h1 (fun hc => absurd hc h2)]
        unfold mainTry
        rcases hd : diarize_audio w (argv.getD 1 "") (progNumSpeakers argv) none
          with ⟨res, tr⟩
        rcases res with e | segs <;> simp [Json.isObj, errorJson, segmentsJson]
    · rw [progMain_run_eq w argv h1 (fun _ => ⟨m, hq⟩)]
      unfold mainTry
      rcases hd : diarize_audio w (argv.getD 1 "") (progNumSpeakers argv) none
        with ⟨res, tr⟩
      rcases res with e | segs <;> simp [Json.isObj, errorJson, segmentsJson]

/-- C10 witness: a concrete successful invocation prints at most one stdout
value. -/
theorem C10_stream_separation_witness :
    (progMain wOk ["diarization.py", "a.wav"]).stdout.length ≤ 1 :=
  (C10_stream_separation wOk ["diarization.py", "a.wav"]).1

/-- C1 counterexample: the invocation with no audio-file argument fails
(exit status 1) yet prints nothing — in particular no `{"error": ...}`
object — to stdout, so not every failing invocation reports its failure as
JSON. -/
theorem C1_counterexample :
    (progMain wOk ["diarization.py"]).exit.code = 1 ∧
    (progMain wOk ["diarization.py"]).stdout = [] :=
  ⟨rfl, rfl⟩

/-- C1 (amended): for every invocation that passes argument parsing and
whose `diarize_audio` call raises, the failure is reported as the JSON
object `{"error": str(e)}` printed to stdout and the process exits with
code 1. -/
theorem C1_error_as_json (w : World) (argv : List String) (e : PyExc)
    (tr : DiarizeTrace)
    (h2 : 2 ≤ argv.length)
    (hp : 2 < argv.length → ∃ m, pyInt (argv.getD 2 "") = some m)
    (herr : diarize_audio w (argv.getD 1 "") (progNumSpeakers argv) none =
      (.error e, tr)) :
    (progMain w argv).stdout = [errorJson e.msg] ∧
    (progMain w argv).exit = .exitOne ∧
    (progMain w argv).exit.code = 1 := by
  have h1 : ¬ argv.length < 2 := by omega
  rw [progMain_run_eq w argv h1 hp]
  unfold mainTry
  rw [herr]
  exact ⟨rfl, rfl, rfl⟩

/-- C1 witness: with the token missing, the `ValueError` from
`diarize_audio` is printed as an error object and the process exits 1. -/
theorem C1_error_as_json_witness :
    (["diarization.py", "a.wav"] : List String).length = 2 ∧
    (progMain wNoTok ["diarization.py", "a.wav"]).stdout =
      [errorJson "HuggingFace token required for pyannote.audio"] :=
  ⟨rfl,
    (C1_error_as_json wNoTok ["diarization.py", "a.wav"]
      (.valueError "HuggingFace token required for pyannote.audio")
      DiarizeTrace.empty (by decide) (by simp) rfl).1⟩

/-- C2: on success the program prints to stdout exactly one JSON object
with the single key `segments`, whose value is the list `diarize_audio`
returned: one object per pipeline turn, in the pipeline's order, each with
exactly the keys `start`, `end` and `speaker`, the boundaries rounded to
two decimal places (`turnToSegment`). -/
theorem C2_success_output (w : World) (argv : List String)
    (h2 : 2 ≤ argv.length)
    (hp : 2 < argv.length → ∃ m, pyInt (argv.getD 2 "") = some m)
    (htok : truthy w.envToken = true)
    (hpath : w.pathExists (argv.getD 1 "") = true)
    (hload : w.loadOk = true) (hrun : w.runOk = true) :
    (progMain w argv).stdout =
      [Json.obj [("segments",
        Json.arr ((w.tracks.map turnToSegment).map Segment.toJson))]] ∧
    (progMain w argv).exit = .normal ∧
    (diarize_audio w (argv.getD 1 "") (progNumSpeakers argv) none).1 =
      .ok (w.tracks.map turnToSegment) := by
  have h1 : ¬ argv.length < 2 := by omega
  obtain ⟨tok, ht⟩ := resolveToken_isSome w none (Or.inr htok)
  have hd := diarize_audio_success w (argv.getD 1 "") (progNumSpeakers argv)
    none tok ht hpath hload hrun
  rw [progMain_run_eq w argv h1 hp]
  unfold mainTry
  rw [hd]
  exact ⟨rfl, rfl, rfl⟩

/-- C2 witness: a concrete successful run prints the one segments object
and exits normally. -/
theorem C2_success_output_witness :
    truthy wOk.envToken = true ∧
    (progMain wOk ["diarization.py", "a.wav"]).stdout =
      [Json.obj [("segments",
        Json.arr ((wOk.tracks.map turnToSegment).map Segment.toJson))]] :=
  ⟨rfl,
    (C2_success_output wOk ["diarization.py", "a.wav"]
      (by decide) (by simp) rfl rfl rfl rfl).1⟩
